import Mathlib

/-!
Shallow embedding of the optimization core of the `regain` repository
(time-varying graphical lasso solvers), covering:

  * `src/rgi/admm_group_lasso_overlap.py` — the elementwise soft-thresholding
    proximal operator `prox`;
  * `src/regain/generalized_linear_model/time.py` — the per-lag consensus
    update of the ADMM lag-consensus solver `_fit_time_ising_model`;
  * `src/regainpr/covariance/kernel_latent_time_graph_lasso_.py` — the per-lag
    consensus update and the diagnostics step of
    `kernel_latent_time_graph_lasso`;
  * `src/regain/forward_backward/time_graph_lasso_.py` — the forward-backward
    solver `time_graph_lasso` with its two line-search controllers.

NumPy float arrays are modelled with exact arithmetic: matrices are
`Matrix (Fin p) (Fin p) ℚ`, time stacks are `List`s of matrices (or of
scalars where the structure, not the linear algebra, is at stake), norms map
into `ℝ` via `Real.sqrt`.  Python exceptions are modelled by `Except PyErr`;
a reference to a local variable that no statement of the enclosing function
assigns is translated to a `NameError` result, matching CPython semantics.
Repository functions that the five source files import but whose sources are
not available (`regain.prox`, `regain.utils`, `regain.norm`,
`regain.covariance.graph_lasso_`) are modelled from the specification and
carry a doc comment saying so.
-/

/-- Python run-time exceptions that the embedded code can raise.  The
`nameError...` constructors stand for CPython raising `NameError` when the
named local variable is referenced before any assignment to it has executed
(`Z_1` in the diagnostics of `kernel_latent_time_graph_lasso`, `n_ls` and
`iteration_` in `time_graph_lasso`); `valueErrorChoose` and
`valueErrorCriterion` are the two explicit `raise ValueError(...)` sites of
`time_graph_lasso` and `choose_lamda`; `broadcastValueError` is the
`ValueError` NumPy raises when two operand shapes cannot be broadcast
together. -/
inductive PyErr where
  | valueErrorChoose : PyErr
  | valueErrorCriterion : PyErr
  | nameErrorZ1 : PyErr
  | nameErrorNLs : PyErr
  | nameErrorIteration : PyErr
  | broadcastValueError : PyErr
deriving DecidableEq

/-- Three-list pointwise combination, truncating to the shortest list
(the NumPy expressions it models act on equal-length stacks). -/
def zipWith3 (f : α → β → γ → δ) : List α → List β → List γ → List δ
  | a :: as, b :: bs, c :: cs => f a b c :: zipWith3 f as bs cs
  | _, _, _ => []

/-- NumPy addition of two stacks along the leading axis, with NumPy
broadcasting: equal lengths add pointwise; a length-one operand is
broadcast along the other; any other combination raises `ValueError`. -/
def npBroadcastAdd [Add α] (xs ys : List α) : Except PyErr (List α) :=
  if xs.length = ys.length then .ok (List.zipWith (· + ·) xs ys)
  else match xs, ys with
    | [x], _ => .ok (ys.map (fun y => x + y))
    | _, [y] => .ok (xs.map (fun x => x + y))
    | _, _ => .error .broadcastValueError

/-- NumPy subtraction of two stacks along the leading axis, with the same
broadcasting rule as `npBroadcastAdd`. -/
def npBroadcastSub [Sub α] (xs ys : List α) : Except PyErr (List α) :=
  if xs.length = ys.length then .ok (List.zipWith (· - ·) xs ys)
  else match xs, ys with
    | [x], _ => .ok (ys.map (fun y => x - y))
    | _, [y] => .ok (xs.map (fun x => x - y))
    | _, _ => .error .broadcastValueError

/-- NumPy in-place `xs += delta`: `delta` is first broadcast against `xs`;
the broadcast result must have exactly the shape of `xs`, otherwise NumPy
raises `ValueError` (a non-broadcastable output operand). -/
def npInplaceAdd [Add α] (xs delta : List α) : Except PyErr (List α) :=
  if xs.length = delta.length then .ok (List.zipWith (· + ·) xs delta)
  else match delta with
    | [d] => .ok (xs.map (fun x => x + d))
    | _ => .error .broadcastValueError

namespace rgi

/-- Scalar instance of `prox` from `src/rgi/admm_group_lasso_overlap.py`,
line 168: `np.maximum(0, x - kappa) - np.maximum(0, -x - kappa)`.
`np.maximum` acts elementwise, so the array operator is this scalar map
applied entrywise. -/
def prox (x kappa : ℚ) : ℚ :=
  max 0 (x - kappa) - max 0 (-x - kappa)

/-- `prox` of `src/rgi/admm_group_lasso_overlap.py` applied to a matrix:
both `np.maximum` calls act entrywise on the array `x`. -/
def proxMat (x : Matrix (Fin n) (Fin n) ℚ) (kappa : ℚ) :
    Matrix (Fin n) (Fin n) ℚ :=
  Matrix.of fun i j => prox (x i j) kappa

/-- The soft-thresholding formula as the specification words it:
`sign(x) * max(|x| - lamda, 0)`. -/
def specSoftThreshold (x lamda : ℚ) : ℚ :=
  (if 0 < x then 1 else if x < 0 then -1 else 0) * max (|x| - lamda) 0


end rgi

/-- NumPy in-place slice addition `A[:-m] += V` (for `m ≥ 1`): the view
`A[:-m]` has length `len(A) - m`; `V` is broadcast against it and the result
must match the view exactly, else NumPy raises `ValueError`. -/
def npSliceAddPrefix [Add α] (A V : List α) (m : ℕ) : Except PyErr (List α) :=
  let k := A.length - m
  if V.length = k then .ok (List.zipWith (· + ·) (A.take k) V ++ A.drop k)
  else match V with
    | [v] => .ok ((A.take k).map (fun a => a + v) ++ A.drop k)
    | _ => .error .broadcastValueError

/-- NumPy in-place slice addition `A[m:] += V`, analogous to
`npSliceAddPrefix`. -/
def npSliceAddSuffix [Add α] (A V : List α) (m : ℕ) : Except PyErr (List α) :=
  if V.length = A.length - m then
    .ok (A.take m ++ List.zipWith (· + ·) (A.drop m) V)
  else match V with
    | [v] => .ok (A.take m ++ (A.drop m).map (fun a => a + v))
    | _ => .error .broadcastValueError

/-- Squared Frobenius norm of a stack of scalars (the 1-feature instance of
`sklearn.utils.extmath.squared_norm` on a stack of matrices). -/
def sqnormL (v : List ℝ) : ℝ := (v.map (fun x => x ^ 2)).sum

namespace TimeIsing

/-!
Embedding of the per-lag consensus update of `_fit_time_ising_model`
(`src/regain/generalized_linear_model/time.py`, lines 150-178).  Time stacks
are `List`s; the element type `α` is kept generic (`ℚ` slices in concrete
evaluations, `ℝ` where transcendental values occur); `m` is the lag.
-/

/-- Line 152: `A_L = K[:-m] + U_L` — the left prox-input stack for lag `m`
pairs the first `T - m` primal slices with the left dual stack. -/
def A_L [Add α] (K U_L : List α) (m : ℕ) : Except PyErr (List α) :=
  npBroadcastAdd (K.take (K.length - m)) U_L

/-- Line 153: `A_R = K[m:] + U_R` — the right prox-input stack for lag `m`
pairs the primal slices shifted by `m` with the right dual stack. -/
def A_R [Add α] (K U_R : List α) (m : ℕ) : Except PyErr (List α) :=
  npBroadcastAdd (K.drop m) U_R

/-- Line 158 (non-node-penalty branch): `Z_L = .5 * (A_L + A_R - prox_e)`. -/
def Z_L [AddCommGroup α] [Module ℚ α] (aL aR proxE : List α) : List α :=
  zipWith3 (fun a b e => (0.5 : ℚ) • (a + b - e)) aL aR proxE

/-- Line 159 (non-node-penalty branch): `Z_R = .5 * (A_L + A_R + prox_e)`. -/
def Z_R [AddCommGroup α] [Module ℚ α] (aL aR proxE : List α) : List α :=
  zipWith3 (fun a b e => (0.5 : ℚ) • (a + b + e)) aL aR proxE

/-- Line 168: `U_L += K[:-m] - Z_L` — left dual update for lag `m`. -/
def U_L_update [Add α] [Sub α] (U_L K zL : List α) (m : ℕ) :
    Except PyErr (List α) := do
  let d ← npBroadcastSub (K.take (K.length - m)) zL
  npInplaceAdd U_L d

/-- Line 169: `U_R += K[m:] - Z_R` — right dual update for lag `m`. -/
def U_R_update [Add α] [Sub α] (U_R K zR : List α) (m : ℕ) :
    Except PyErr (List α) := do
  let d ← npBroadcastSub (K.drop m) zR
  npInplaceAdd U_R d

/-- Lines 172-174: the primal residual
`rnorm = sqrt(sum over m of ||K[:-m] - Z_L||^2 + ||K[m:] - Z_R||^2)`;
the list `ZM` holds the lag-`m` consensus pair at index `m - 1`
(the source keeps them in the dict `Z_M` keyed by `m = 1 .. T-1`). -/
noncomputable def rnorm (K : List ℝ) (ZM : List (List ℝ × List ℝ)) : ℝ :=
  Real.sqrt ((ZM.enum.map fun p =>
    sqnormL (List.zipWith (· - ·) (K.take (K.length - (p.1 + 1))) p.2.1) +
    sqnormL (List.zipWith (· - ·) (K.drop (p.1 + 1)) p.2.2)).sum)

/-- Lines 176-178: the dual residual
`snorm = rho * sqrt(sum over m of ||Z_L - Z_L_old||^2 + ||Z_R - Z_R_old||^2)`. -/
noncomputable def snorm (rho : ℝ) (ZM ZMold : List (List ℝ × List ℝ)) : ℝ :=
  rho * Real.sqrt (((ZM.zip ZMold).map fun p =>
    sqnormL (List.zipWith (· - ·) p.1.1 p.2.1) +
    sqnormL (List.zipWith (· - ·) p.1.2 p.2.2)).sum)

/-- Lines 206-211: the loop terminates when either the target-objective test
fires (`stop_at` supplied and the relative gap `|obj - stop_at| / |stop_at|`
is below `stop_when`) or both residuals are within their thresholds
(`rnorm <= e_pri` and `snorm <= e_dual`). -/
def stopDecision (stopAt : Option ℝ) (stopWhen obj rn sn ePri eDual : ℝ) :
    Prop :=
  (match stopAt with
    | some s => |obj - s| / |s| < stopWhen
    | none => False) ∨ (rn ≤ ePri ∧ sn ≤ eDual)

end TimeIsing

namespace KLTGL

/-!
Embedding of the per-lag consensus update and the diagnostics step of
`kernel_latent_time_graph_lasso`
(`src/regainpr/covariance/kernel_latent_time_graph_lasso_.py`,
lines 135-229), with 1-feature slices (each `p x p` matrix a scalar).
-/

/-- Line 164: `A_L = Z_0[:-1] + X_L` — note the slice is `[:-1]` for every
lag `m` (the statement sits inside `for m in range(1, n_times)`), while the
dual update at line 180 uses `Z_0[:-m]`. -/
def A_L [Add α] (Z0 X_L : List α) : Except PyErr (List α) :=
  npBroadcastAdd (Z0.take (Z0.length - 1)) X_L

/-- Line 165: `A_R = Z_0[1:] + X_R` — again a lag-1 slice (`[1:]`) for every
lag `m`, while the dual update at line 181 uses `Z_0[m:]`. -/
def A_R [Add α] (Z0 X_R : List α) : Except PyErr (List α) :=
  npBroadcastAdd (Z0.drop 1) X_R

/-- Line 170 (non-node-penalty branch): `Z_L = .5 * (A_L + A_R - prox_e)`. -/
def Z_L [AddCommGroup α] [Module ℚ α] (aL aR proxE : List α) : List α :=
  zipWith3 (fun a b e => (0.5 : ℚ) • (a + b - e)) aL aR proxE

/-- Line 171 (non-node-penalty branch): `Z_R = .5 * (A_L + A_R + prox_e)`. -/
def Z_R [AddCommGroup α] [Module ℚ α] (aL aR proxE : List α) : List α :=
  zipWith3 (fun a b e => (0.5 : ℚ) • (a + b + e)) aL aR proxE

/-- Line 180: `X_L += Z_0[:-m] - Z_L`. -/
def X_L_update [Add α] [Sub α] (X_L Z0 zL : List α) (m : ℕ) :
    Except PyErr (List α) := do
  let d ← npBroadcastSub (Z0.take (Z0.length - m)) zL
  npInplaceAdd X_L d

/-- Line 181: `X_R += Z_0[m:] - Z_R`. -/
def X_R_update [Add α] [Sub α] (X_R Z0 zR : List α) (m : ℕ) :
    Except PyErr (List α) := do
  let d ← npBroadcastSub (Z0.drop m) zR
  npInplaceAdd X_R d

/-- Modelled from the spec: `prox_logdet` from `regain.prox` (module not under
`src/`) — the log-determinant proximal map of spec section 4.5, here its
1-feature (scalar) instance: the positive root of the stationarity condition
of the prox objective.  Its value feeds no control-flow decision of any
theorem below. -/
noncomputable def proxLogdet (a lamda : ℝ) : ℝ :=
  (a + Real.sqrt (a ^ 2 + 4 * lamda)) / 2

/-- Modelled from the spec: `soft_thresholding` from `regain.prox` (module not
under `src/`) — elementwise `sign(x) * max(|x| - lamda, 0)` (spec section
4.1), scalar instance. -/
noncomputable def softThresholdingR (x lamda : ℝ) : ℝ :=
  (if 0 < x then 1 else if x < 0 then -1 else 0) * max (|x| - lamda) 0

/-- Modelled from the spec: `prox_trace_indicator` from `regain.prox` (module
not under `src/`) — the nuclear-norm proximal map that soft-thresholds
eigenvalues without changing their sign (spec sections 3 and 4.1), scalar
instance. -/
noncomputable def proxTraceIndicator (a lamda : ℝ) : ℝ :=
  max (a - lamda) 0

/-- The `m`-th superdiagonal `np.diag(kernel, m)` of a `T x T` kernel matrix
given as an access function. -/
def npDiag (kernel : ℕ → ℕ → ℝ) (T m : ℕ) : List ℝ :=
  (List.range (T - m)).map fun i => kernel i (i + m)

/-- Arguments of `kernel_latent_time_graph_lasso` relevant to one outer
iteration; `proxPsi` and `proxPhi` are the proximal operators returned by
`check_norm_prox` (an import from `regain.validation`, not under `src/`),
taking the input stack and the `lamda` stack. -/
structure KLParams where
  T : ℕ
  empCov : List ℝ
  nSamples : List ℝ
  alpha : ℝ
  tau : ℝ
  rho : ℝ
  kernelPsi : ℕ → ℕ → ℝ
  kernelPhi : ℕ → ℕ → ℝ
  proxPsi : List ℝ → List ℝ → List ℝ
  proxPhi : List ℝ → List ℝ → List ℝ

/-- The mutable locals of `kernel_latent_time_graph_lasso` at the top of an
outer iteration.  The per-lag dictionaries `Z_M`, `X_M`, `W_M`, `U_M`
(keyed `m = 1 .. T-1`) are lists holding the lag-`m` pair at index `m - 1`. -/
structure KLState where
  Z0 : List ℝ
  W0 : List ℝ
  X0 : List ℝ
  ZM : List (List ℝ × List ℝ)
  XM : List (List ℝ × List ℝ)
  WM : List (List ℝ × List ℝ)
  UM : List (List ℝ × List ℝ)

/-- One outer iteration of `kernel_latent_time_graph_lasso` (lines 135-229),
with `psi` and `phi` in the non-node-penalty branch, 1-feature slices (so the
`A += A.transpose(0, 2, 1); A /= 2.` symmetrisation is `(a + a) / 2` per
slice).  The iteration never returns normally: its diagnostics step
(line 218) evaluates `squared_norm(Z_0[:-1] - Z_1)` where `Z_1` is a local
name that no statement of the function assigns (nor are `Z_2`, `W_1`, `W_2`,
`Z_1_old`, `Z_2_old`, `W_1_old`, `W_2_old`, `X_1`, `X_2`, `U_1`, `U_2`,
`beta`, `eta`, which the subsequent lines 218-269 also reference), so CPython
raises `NameError` there; lines 230 onward are unreachable. -/
noncomputable def iteration (P : KLParams) (s : KLState) :
    Except PyErr KLState := do
  -- update R (lines 137-145)
  let A1 := zipWith3 (fun z w x => z - w - x) s.Z0 s.W0 s.X0
  let A2 := A1.map fun a => (a + a) / 2
  let A3 := List.zipWith (fun a n => (-P.rho / n) * a) A2 P.nSamples
  let A4 := List.zipWith (· + ·) A3 P.empCov
  let R := List.zipWith (fun a n => proxLogdet a (n / P.rho)) A4 P.nSamples
  -- update Z_0 (lines 148-156)
  let B0 := zipWith3 (fun r w x => r + w + x) R s.W0 s.X0
  let B1 ← (s.ZM.zip s.XM).enum.foldlM (fun acc p => do
    let m := p.1 + 1
    let acc1 ← npSliceAddPrefix acc
      (List.zipWith (· - ·) p.2.1.1 p.2.2.1) m
    npSliceAddSuffix acc1 (List.zipWith (· - ·) p.2.1.2 p.2.2.2) m) B0
  let B2 := B1.map fun a => a / (P.T : ℝ)
  let Z0 := B2.map fun a => softThresholdingR a (P.alpha / (P.rho * P.T))
  -- update residuals (line 159): X_0 += R - Z_0 + W_0
  let X0 := List.zipWith (· + ·) s.X0 (zipWith3 (fun r z w => r - z + w) R Z0 s.W0)
  -- other Zs (lines 162-181)
  let zxs ← (s.ZM.zip s.XM).enum.mapM (fun p => do
    let m := p.1 + 1
    let aL ← A_L Z0 p.2.2.1
    let aR ← A_R Z0 p.2.2.2
    let proxE := P.proxPsi (List.zipWith (· - ·) aR aL)
      ((npDiag P.kernelPsi P.T m).map fun k => 2 * k / P.rho)
    let zL := Z_L aL aR proxE
    let zR := Z_R aL aR proxE
    let xl ← X_L_update p.2.2.1 Z0 zL m
    let xr ← X_R_update p.2.2.2 Z0 zR m
    pure ((zL, zR), (xl, xr)))
  let _ZM := zxs.map Prod.fst
  let _XM := zxs.map Prod.snd
  -- update W_0 (lines 184-194)
  let C0 := zipWith3 (fun z r x => z - r - x) Z0 R X0
  let C1 ← (s.WM.zip s.UM).enum.foldlM (fun acc p => do
    let m := p.1 + 1
    let acc1 ← npSliceAddPrefix acc
      (List.zipWith (· - ·) p.2.1.1 p.2.2.1) m
    npSliceAddSuffix acc1 (List.zipWith (· - ·) p.2.1.2 p.2.2.2) m) C0
  let C2 := C1.map fun a => a / (P.T : ℝ)
  let C3 := C2.map fun a => (a + a) / 2
  let W0 := C3.map fun a => proxTraceIndicator a (P.tau / (P.rho * P.T))
  -- other Ws (lines 197-214), as for the Zs but with W_0, U_M, phi
  let wus ← (s.WM.zip s.UM).enum.mapM (fun p => do
    let m := p.1 + 1
    let aL ← A_L W0 p.2.2.1
    let aR ← A_R W0 p.2.2.2
    let proxE := P.proxPhi (List.zipWith (· - ·) aR aL)
      ((npDiag P.kernelPhi P.T m).map fun k => 2 * k / P.rho)
    let wL := Z_L aL aR proxE
    let wR := Z_R aL aR proxE
    let ul ← X_L_update p.2.2.1 W0 wL m
    let ur ← X_R_update p.2.2.2 W0 wR m
    pure ((wL, wR), (ul, ur)))
  let _WM := wus.map Prod.fst
  let _UM := wus.map Prod.snd
  -- diagnostics (lines 216-229): the expression for `rnorm` references the
  -- local name `Z_1`, which no statement of the function ever assigns, so
  -- CPython raises `NameError` at line 218
  throw .nameErrorZ1

end KLTGL

namespace FB

/-!
Embedding of `time_graph_lasso` and its two line-search controllers
(`src/regain/forward_backward/time_graph_lasso_.py`).  A time slice is a
`p x p` rational matrix, a time stack a `List` of slices.  The run is
modelled with `verbose=False`, `return_history=False` (so the per-iteration
`convergence` record of lines 296-304 is dead weight: with exact arithmetic
`rnorm`/`snorm` are never NaN, hence the line 313-314 warning never fires,
and nothing else reads the record) and with both `return_n_iter` and
`return_n_linesearch` reflected in the result record.
-/

abbrev Mat (p : ℕ) := Matrix (Fin p) (Fin p) ℚ

/-- `_scalar_product` (lines 70-71): `(x * y).sum()` — the sum of the
elementwise products over the whole stack. -/
def scalar_product (x y : List (Mat p)) : ℚ :=
  (List.zipWith (fun a b =>
    Finset.sum Finset.univ fun i : Fin p =>
      Finset.sum Finset.univ fun j : Fin p => a i j * b i j) x y).sum

/-- Squared Frobenius norm of a stack, `np.linalg.norm(x)^2`. -/
def sqnorm (x : List (Mat p)) : ℚ := scalar_product x x

/-- `np.linalg.norm` of a stack (Frobenius over all entries). -/
noncomputable def normStack (x : List (Mat p)) : ℝ := Real.sqrt (sqnorm x)

/-- Four-list pointwise combination, truncating to the shortest list. -/
def zipWith4 (f : α → β → γ → δ → ε) :
    List α → List β → List γ → List δ → List ε
  | a :: as, b :: bs, c :: cs, d :: ds => f a b c d :: zipWith4 f as bs cs ds
  | _, _, _, _ => []

/-- Determinant by Laplace expansion along the first row (an executable
rendering of the determinant, equal to `Matrix.det`; see `detQ_eq_det`). -/
def detQ : {n : ℕ} → Matrix (Fin n) (Fin n) ℚ → ℚ
  | 0, _ => 1
  | n + 1, A => Finset.sum Finset.univ fun j : Fin (n + 1) =>
      (-1 : ℚ) ^ (j : ℕ) * A 0 j * detQ (A.submatrix Fin.succ j.succAbove)

/-- Modelled from the spec: `linalg.pinvh` (SciPy) and the eigendecomposition
based inverse of lines 257-264 — the inverse of a symmetric positive-definite
slice (spec section 4.2: the gradient uses the slice inverse computed from its
eigendecomposition).  Modelled as the adjugate-based classical inverse, which
agrees with the true inverse on the invertible slices the solver feeds it and
sends the zero matrix to the zero matrix exactly as the pseudo-inverse does. -/
def pinvh : {p : ℕ} → Mat p → Mat p
  | 0, a => a
  | q + 1, a => (detQ a)⁻¹ • Matrix.of fun i j : Fin (q + 1) =>
      (-1 : ℚ) ^ ((i : ℕ) + (j : ℕ)) *
        detQ (a.submatrix j.succAbove i.succAbove)

/-- Leading principal minor of order `k + 1` of a slice. -/
def leadingMinor (a : Mat p) (k : Fin p) : ℚ :=
  detQ (a.submatrix
    (fun i : Fin (k.1 + 1) => Fin.castLE k.isLt i)
    (fun j : Fin (k.1 + 1) => Fin.castLE k.isLt j))

/-- Modelled from the spec: `positive_definite` from `regain.utils` (module
not under `src/`) — every time slice of the stack must be positive definite
(spec section 3: the `K[t]` invariant, checked at the top of each outer
iteration).  Rendered by the Sylvester criterion: on the symmetric slices the
solver handles, all leading principal minors are positive exactly when the
slice is positive definite. -/
def positive_definite (K : List (Mat p)) : Prop :=
  ∀ a ∈ K, ∀ k : Fin p, 0 < leadingMinor a k

/-- Modelled from the spec: the minimum eigenvalue of a symmetric slice as
`np.linalg.eigh` reports it (used only by criterion c of `choose_lamda`);
defined as the infimum of the real spectrum.  No theorem below evaluates it. -/
noncomputable def minEig (a : Mat p) : ℝ :=
  sInf {mu : ℝ | ∃ v : Fin p → ℝ, v ≠ 0 ∧
    (a.map fun q => (q : ℝ)).mulVec v = mu • v}

/-- `np.min` over the eigenvalues of all slices of a stack. -/
noncomputable def minEigStack (x : List (Mat p)) : ℝ :=
  match x.map minEig with
  | [] => 0
  | h :: t => t.foldl min h

/-- Modelled from the spec: `logl` from `regain.covariance.graph_lasso_`
(module not under `src/`) — the per-slice Gaussian log-likelihood of a
precision matrix against an empirical covariance, `log det K - <S, K>`
(spec section 4.2). -/
noncomputable def logl (S K : Mat p) : ℝ :=
  Real.log ((Matrix.det K : ℚ) : ℝ) -
    ((Finset.sum Finset.univ fun i : Fin p =>
      Finset.sum Finset.univ fun j : Fin p => S i j * K i j : ℚ) : ℝ)

/-- `loss` (lines 20-28): `sum(-ni * logl(S_t, K_t)) + vareps/2 * <K, K>`. -/
noncomputable def loss (S K : List (Mat p)) (nSamples : List ℚ) (vareps : ℚ) :
    ℝ :=
  (zipWith3 (fun s k n => -(n : ℝ) * logl s k) S K nSamples).sum +
    ((vareps : ℝ) / 2) * ((scalar_product K K : ℚ) : ℝ)

/-- `grad_loss` (lines 31-41): per slice `n_t * (S_t - inv_t) + vareps * x_t`;
when no inverse stack is supplied it is recomputed with `pinvh` per slice. -/
def grad_loss (x empCov : List (Mat p)) (nSamples : List ℚ)
    (xInv : Option (List (Mat p))) (vareps : ℚ) : List (Mat p) :=
  let xi := match xInv with
    | some v => v
    | none => x.map pinvh
  zipWith4 (fun s inv n xv => n • (s - inv) + vareps • xv) empCov xi nSamples x

/-- Modelled from the spec: `l1_od_norm` from `regain.norm` (module not under
`src/`) — the off-diagonal elementwise l1 norm of a slice (spec glossary:
off-diagonal sparsity penalty). -/
def l1_od_norm (a : Mat p) : ℚ :=
  Finset.sum Finset.univ fun i : Fin p =>
    Finset.sum Finset.univ fun j : Fin p => if i = j then 0 else |a i j|

/-- Modelled from the spec: `vector_p_norm` from `regain.norm` (module not
under `src/`) — the temporal psi norm with order `pp` on the stacked
differences (spec section 4.1: the norm order controls whether the temporal
term is an l1, l2, or other p-norm of the stacked differences), modelled as
the entrywise lp norm of the stack. -/
noncomputable def vector_p_norm (pp : ℕ) (x : List (Mat p)) : ℝ :=
  ((x.map fun a =>
    Finset.sum Finset.univ fun i : Fin p =>
      Finset.sum Finset.univ fun j : Fin p =>
        ((|a i j| : ℚ) : ℝ) ^ (pp : ℝ)).sum) ^ ((pp : ℝ))⁻¹

/-- `penalty` (lines 44-51, scalar `alpha` branch):
`alpha * sum(l1_od_norm) + beta * psi(K[1:] - K[:-1])`. -/
noncomputable def penalty (precision : List (Mat p)) (alpha beta : ℚ)
    (psi : List (Mat p) → ℝ) : ℝ :=
  (alpha : ℝ) * (((precision.map l1_od_norm).sum : ℚ) : ℝ) +
    (beta : ℝ) * psi (List.zipWith (· - ·) (precision.drop 1)
      (precision.take (precision.length - 1)))

/-- `objective` (lines 54-58): `loss + penalty`. -/
noncomputable def objective (nSamples : List ℚ) (empCov precision : List (Mat p))
    (alpha beta : ℚ) (psi : List (Mat p) → ℝ) (vareps : ℚ) : ℝ :=
  loss empCov precision nSamples vareps + penalty precision alpha beta psi

/-- Modelled from the spec: the elementwise soft threshold
`sign(x) * max(|x| - lamda, 0)` (spec section 4.1), scalar rational
instance, used by the `prox_FL` model below. -/
def softQ (x lamda : ℚ) : ℚ :=
  (if 0 < x then 1 else if x < 0 then -1 else 0) * max (|x| - lamda) 0

/-- Modelled from the spec: `prox_FL` from `regain.prox` (module not under
`src/`) — the fused/temporal proximal map (spec section 4.1), called with
`symmetric=True` by the solver.  The spec gives no algorithm for the
temporal-difference component; it is modelled at its `beta = 0` degeneracy,
at which the map must equal elementwise soft-thresholding at the sparsity
threshold (spec section 8, fused-penalty degeneracy); the symmetric mode is
rendered by averaging with the transpose.  No theorem below depends on the
values this map returns. -/
def prox_FL (a : List (Mat p)) (_betaGamma lamdaGamma : ℚ) : List (Mat p) :=
  a.map fun x => Matrix.of fun i j =>
    (softQ (x i j) lamdaGamma + softQ (x j i) lamdaGamma) / 2

/-- `upper_diag_3d` (lines 174-179): `np.triu(x, 1)` per slice. -/
def upper_diag_3d (x : List (Mat p)) : List (Mat p) :=
  x.map fun a => Matrix.of fun i j => if i < j then a i j else 0

open Classical in
/-- The backtracking loop of `choose_gamma` (lines 89-100): test the
majorization inequality at the current `gamma`; on failure shrink
`gamma *= eps` and retry; when the round budget is spent return the last
(smallest) `gamma` without raising. -/
noncomputable def choose_gamma_loop (x empCov : List (Mat p))
    (nSamples : List ℚ) (beta alpha lamda delta eps : ℚ) (_pp : ℕ)
    (grad : List (Mat p)) (vareps : ℚ) (fx : ℝ) :
    ℕ → ℚ → ℚ
  | 0, gamma => gamma
  | fuel + 1, gamma =>
    let prox := prox_FL (List.zipWith (fun k g => k - gamma • g) x grad)
      (beta * gamma) (alpha * gamma)
    let yMinusX := List.zipWith (· - ·) prox x
    let lossDiff := loss empCov
      (List.zipWith (fun k d => k + lamda • d) x yMinusX) nSamples vareps - fx
    let tolerance : ℚ := scalar_product yMinusX grad +
      delta / gamma * scalar_product yMinusX yMinusX
    if lossDiff ≤ (lamda : ℝ) * ((tolerance : ℚ) : ℝ) then gamma
    else choose_gamma_loop x empCov nSamples beta alpha lamda delta eps _pp
      grad vareps fx fuel (gamma * eps)

/-- `choose_gamma` (lines 74-100): warm-started step-size backtracking
against the majorization inequality. -/
noncomputable def choose_gamma (gamma : ℚ) (x empCov : List (Mat p))
    (nSamples : List ℚ) (beta alpha lamda : ℚ) (grad : List (Mat p))
    (delta eps : ℚ) (maxIter pp : ℕ) (vareps : ℚ) : ℚ :=
  let fx := loss empCov x nSamples vareps
  choose_gamma_loop x empCov nSamples beta alpha lamda delta eps pp grad
    vareps fx maxIter gamma

open Classical in
/-- The backtracking loop of `choose_lamda` (lines 138-166).  `rounds` counts
the rounds already spent, so the returned count is `i + 1` of the source on
acceptance and `max_iter` on exhaustion; an unrecognized `criterion` token
reaches the `raise ValueError(criterion)` of line 164 in the first round. -/
noncomputable def choose_lamda_loop (x empCov : List (Mat p))
    (nSamples : List ℚ) (beta alpha gamma delta eps : ℚ) (criterion : String)
    (pp : ℕ) (grad : List (Mat p)) (minEigenX : ℝ) (vareps : ℚ) (fx : ℝ)
    (minEigenY : ℝ) (yMinusX : List (Mat p)) (toleranceB : ℚ)
    (toleranceC objectiveX : ℝ) :
    ℕ → ℕ → ℚ → Except PyErr (ℚ × ℕ)
  | 0, rounds, lamda => .ok (lamda, rounds)
  | fuel + 1, rounds, lamda =>
    let x1 := List.zipWith (fun k d => k + lamda • d) x yMinusX  -- line 140
    if criterion = "a" then
      -- lines 142-150 (`grad_loss` is called without `vareps`, so with its
      -- default `vareps = 0`, and recomputes the inverse stack itself)
      let iterDiff := List.zipWith (· - ·) x1 x
      let gradx1 := grad_loss x1 empCov nSamples none 0
      let gradDiff := List.zipWith (· - ·) gradx1 grad
      let normGradDiff := Real.sqrt ((scalar_product gradDiff gradDiff : ℚ) : ℝ)
      let normIterDiff := Real.sqrt ((scalar_product iterDiff iterDiff : ℚ) : ℝ)
      let toleranceA := (delta : ℝ) * normIterDiff / ((gamma : ℝ) * (lamda : ℝ))
      if normGradDiff ≤ toleranceA then .ok (lamda, rounds + 1)
      else choose_lamda_loop x empCov nSamples beta alpha gamma delta eps
        criterion pp grad minEigenX vareps fx minEigenY yMinusX toleranceB
        toleranceC objectiveX fuel (rounds + 1) (lamda * eps)
    else if criterion = "b" then
      -- lines 151-154
      let lossDiff := loss empCov x1 nSamples vareps - fx
      if lossDiff ≤ (lamda : ℝ) * ((toleranceB : ℚ) : ℝ) then
        .ok (lamda, rounds + 1)
      else choose_lamda_loop x empCov nSamples beta alpha gamma delta eps
        criterion pp grad minEigenX vareps fx minEigenY yMinusX toleranceB
        toleranceC objectiveX fuel (rounds + 1) (lamda * eps)
    else if criterion = "c" then
      -- lines 155-162, with the positive-definiteness-preserving gate on
      -- lamda from the minimum eigenvalues
      let objDiff := objective nSamples empCov x1 alpha beta
        (vector_p_norm pp) vareps - objectiveX
      let cond := if 0 ≤ minEigenY then 0 < lamda
        else (lamda : ℝ) < minEigenX / (minEigenX - minEigenY)
      if cond ∧ objDiff ≤ (lamda : ℝ) * toleranceC then .ok (lamda, rounds + 1)
      else choose_lamda_loop x empCov nSamples beta alpha gamma delta eps
        criterion pp grad minEigenX vareps fx minEigenY yMinusX toleranceB
        toleranceC objectiveX fuel (rounds + 1) (lamda * eps)
    else .error .valueErrorCriterion  -- lines 163-164

/-- `choose_lamda` (lines 103-166): extrapolation-weight backtracking under
one of the three acceptance criteria; returns the accepted `lamda` and the
number of rounds spent, or the `ValueError` of line 164. -/
noncomputable def choose_lamda (lamda : ℚ) (x empCov : List (Mat p))
    (nSamples : List ℚ) (beta alpha gamma delta eps : ℚ) (maxIter : ℕ)
    (criterion : String) (pp : ℕ) (grad prox : List (Mat p)) (minEigenX : ℝ)
    (vareps : ℚ) : Except PyErr (ℚ × ℕ) :=
  let fx := loss empCov x nSamples vareps                  -- line 122
  let minEigenY := minEigStack prox                        -- line 124
  let yMinusX := List.zipWith (· - ·) prox x               -- line 126
  -- lines 127-136: pre-loop tolerances of criteria b and c
  let toleranceB : ℚ := scalar_product yMinusX grad +
    delta / gamma * scalar_product yMinusX yMinusX
  let gx := penalty x alpha beta (vector_p_norm pp)
  let gy := penalty prox alpha beta (vector_p_norm pp)
  let objectiveX := objective nSamples empCov x alpha beta
    (vector_p_norm pp) vareps
  let toleranceC := (1 - (delta : ℝ)) *
    (gy - gx + ((scalar_product yMinusX grad : ℚ) : ℝ))
  choose_lamda_loop x empCov nSamples beta alpha gamma delta eps criterion pp
    grad minEigenX vareps fx minEigenY yMinusX toleranceB toleranceC
    objectiveX maxIter 0 lamda

/-- Console and warning events `time_graph_lasso` emits, in order:
the line 252 divergence print, the line 275 `print(gamma)`, the line 291
`print(lamda, n_ls)` (when it does not raise), and the line 343
`warnings.warn` of the `for ... else` branch. -/
inductive Event where
  | printNotPD : Event
  | printGamma : Event
  | printLamdaNls : Event
  | warnNonConvergence : Event
deriving DecidableEq

/-- The arguments of `time_graph_lasso` fixed across the outer loop. -/
structure Cfg (p : ℕ) where
  empCov : List (Mat p)
  nSamples : List ℚ
  alpha : ℚ
  beta : ℚ
  tol : ℚ
  delta : ℚ
  eps : ℚ
  debug : Bool
  choose : String
  lamdaCriterion : String
  timeNorm : ℕ
  vareps : ℚ

/-- The mutable locals of `time_graph_lasso` at the top of an outer
iteration.  `S` is the binding of `emp_cov` (never reassigned by the
source; threading it makes that checkable); `maxResidual = none` models the
`-np.inf` initialisation of line 248; `nLs = none` models the Python local
`n_ls` before its first assignment; `iter` is the value of `iteration_`. -/
structure St (p : ℕ) where
  K : List (Mat p)
  S : List (Mat p)
  gamma : ℚ
  lamda : ℚ
  maxResidual : Option ℝ
  nLinesearch : ℕ
  nLs : Option ℕ
  iter : ℕ

/-- Outcome of one outer iteration: `brk` for the `break` statements
(lines 253 and 337), `cont` for falling through to the next iteration. -/
inductive IterOut (p : ℕ) where
  | brk : St p → IterOut p
  | cont : St p → IterOut p

/-- The state carried by either outcome of an iteration. -/
def outSt : IterOut p → St p
  | .brk s1 => s1
  | .cont s1 => s1

/-- Lines 327-335: the stopping decision of one outer iteration.
`maxResPrev` is the running maximum residual before this iteration (`none`
models the `-np.inf` initialisation of line 248, and the line 328 update
`max(max_residual, res_norm)` is then `resNorm` itself, matching
`max(-inf, r) = r`).  With exact real arithmetic the `0/0` case of
`res_norm / max_residual` evaluates to `0` where NumPy produces NaN; that
case only arises when `resNorm = 0`, where the second disjunct
`res_norm / normalizer <= tol` decides the conjunction identically, so the
break decision agrees with NumPy on every input. -/
def stop_rule (debug : Bool) (tol : ℚ) (resNorm : ℝ) (maxResPrev : Option ℝ)
    (gradNorm subgradNorm : ℝ) (iter : ℕ) : Prop :=
  let maxRes := match maxResPrev with
    | none => resNorm
    | some m => max m resNorm
  let normalizer := max gradNorm subgradNorm + 1e-6
  ¬debug = true ∧
    (resNorm / maxRes ≤ (tol : ℝ) ∨ resNorm / normalizer ≤ (tol : ℝ)) ∧
    iter > 0

/-- Line 293: `K = K + np.maximum(lamda, 0) * (y - K)`. -/
def accept_step (K y : List (Mat p)) (lamda : ℚ) : List (Mat p) :=
  List.zipWith (fun k yv => k + max lamda 0 • (yv - k)) K y

/-- The acceptance update as the specification words it (section 4.4, step 6):
add to `K` the difference stack `y - K` scaled by the clamped weight
`max(lamda, 0)`. -/
def claim_accept (K y : List (Mat p)) (lamda : ℚ) : List (Mat p) :=
  List.zipWith (· + ·) K
    ((List.zipWith (· - ·) y K).map fun d => max lamda 0 • d)

/-- The stopping condition as the specification words it (section 4.4,
step 8): the residual relative to either the running maximum residual or the
gradient/subgradient normalizer falls at or below the tolerance, with at
least one completed iteration — with no mention of the `debug` flag. -/
def claim_stop (tol : ℚ) (resNorm : ℝ) (maxResPrev : Option ℝ)
    (gradNorm subgradNorm : ℝ) (iter : ℕ) : Prop :=
  (resNorm / (match maxResPrev with
    | none => resNorm
    | some m => max m resNorm) ≤ (tol : ℝ) ∨
   resNorm / (max gradNorm subgradNorm + 1e-6) ≤ (tol : ℝ)) ∧ 0 < iter

open Classical in
/-- Lines 293-337 of the loop body, after the `print(lamda, n_ls)` succeeded:
accept the iterate `K = K + np.maximum(lamda, 0) * (y - K)` (line 293),
form the subgradient `(x_hat - K) / gamma` (line 317), the residual
`||K - K_prev|| / gamma` (line 327), update the running maximum residual
(line 328) and break on the stopping rule of lines 329-337.  The
`convergence` record of lines 296-304 and the NaN warning of lines 313-314
are dead under the modelled flags (see the namespace docstring). -/
noncomputable def accept_and_check (C : Cfg p) (s : St p)
    (gamma1 lamda1 : ℚ) (nls nLine1 : ℕ) (grad xHat y kPrev : List (Mat p)) :
    List Event × Except PyErr (IterOut p) :=
  let Knew := accept_step s.K y lamda1                     -- line 293
  let subgrad := List.zipWith (fun xh k => gamma1⁻¹ • (xh - k)) xHat Knew  -- line 317
  let resNorm := normStack (List.zipWith (· - ·) Knew kPrev) / (gamma1 : ℝ)  -- line 327
  let maxRes1 : ℝ := match s.maxResidual with
    | none => resNorm
    | some m => max m resNorm                              -- line 328
  let s1 : St p :=
    { K := Knew, S := s.S, gamma := gamma1, lamda := lamda1,
      maxResidual := some maxRes1, nLinesearch := nLine1,
      nLs := some nls, iter := s.iter }
  -- lines 329-337
  if stop_rule C.debug C.tol resNorm s.maxResidual (normStack grad)
      (normStack subgrad) s.iter then
    ([.printGamma, .printLamdaNls], .ok (.brk s1))
  else
    ([.printGamma, .printLamdaNls], .ok (.cont { s1 with iter := s.iter + 1 }))

open Classical in
/-- One iteration of the `for iteration_ in range(max_iter)` loop of
`time_graph_lasso` (lines 250-337): the events printed during the iteration
and either a Python exception, a `brk`, or a `cont` with the next state. -/
noncomputable def fbIter (C : Cfg p) (s : St p) :
    List Event × Except PyErr (IterOut p) :=
  -- lines 251-253: positive-definiteness gate; on failure print the
  -- diagnostic and break with every local unchanged
  if positive_definite s.K then
    let kPrev := s.K                                       -- line 255
    let xInv := s.K.map pinvh                              -- lines 257-264
    let grad := grad_loss s.K C.empCov C.nSamples (some xInv) C.vareps  -- line 267
    -- lines 268-274: optional re-tuning of gamma (warm start divides the
    -- previous gamma by eps from the second iteration on)
    let gamma1 := if C.choose = "gamma" ∨ C.choose = "both" then
        choose_gamma (if 0 < s.iter then s.gamma / C.eps else s.gamma)
          s.K C.empCov C.nSamples C.beta C.alpha s.lamda grad C.delta C.eps
          200 C.timeNorm C.vareps
      else s.gamma
    -- line 275: print(gamma)
    let xHat := List.zipWith (fun k g => k - gamma1 • g) s.K grad  -- line 277
    let y := prox_FL xHat (C.beta * gamma1) (C.alpha * gamma1)     -- lines 278-279
    -- lines 281-290: optional re-tuning of lamda; the local `n_ls` is
    -- assigned only inside this branch
    let lamdaStep : Except PyErr (ℚ × Option ℕ × ℕ) :=
      if C.choose = "lamda" ∨ C.choose = "both" then
        match choose_lamda
            (min (if 0 < s.iter then s.lamda / C.eps else s.lamda) 1)
            s.K C.empCov C.nSamples C.beta C.alpha gamma1 C.delta C.eps 200
            C.lamdaCriterion C.timeNorm grad y (minEigStack s.K) C.vareps with
        | .error e => .error e
        | .ok (l, n) => .ok (l, some n, s.nLinesearch + n)
      else .ok (s.lamda, s.nLs, s.nLinesearch)
    match lamdaStep with
    | .error e => ([.printGamma], .error e)
    | .ok (lamda1, nLs1, nLine1) =>
      -- line 291: `print(lamda, n_ls)` raises NameError when `n_ls` has
      -- never been assigned, that is, when `choose` is "gamma" or "fixed"
      match nLs1 with
      | none => ([.printGamma], .error .nameErrorNLs)
      | some nls => accept_and_check C s gamma1 lamda1 nls nLine1 grad xHat y
          kPrev
  else ([.printNotPD], .ok (.brk s))

/-- The outer loop (lines 250-343) with its `for ... else` warning: the
Boolean in the result is `true` exactly when the iteration budget was
exhausted without a `break`, in which case the `warnings.warn` of line 343
has executed. -/
noncomputable def fbLoop (C : Cfg p) :
    ℕ → St p → List Event × Except PyErr (St p × Bool)
  | 0, s => ([.warnNonConvergence], .ok (s, true))
  | fuel + 1, s =>
    match fbIter C s with
    | (evs, .error e) => (evs, .error e)
    | (evs, .ok (.brk s1)) => (evs, .ok (s1, false))
    | (evs, .ok (.cont s1)) =>
      let r := fbLoop C fuel s1
      (evs ++ r.1, r.2)

/-- The value `time_graph_lasso` returns (lines 348-355), modelled with
`return_history=False`, `return_n_iter=True`, `return_n_linesearch=True`.
`SOut` is the binding of `emp_cov` at return time, threaded through the
loop state. -/
structure Result (p : ℕ) where
  K : List (Mat p)
  covariance : List (Mat p)
  SOut : List (Mat p)
  nIter : ℕ
  nLinesearch : ℕ

/-- Lines 230-233: `covariance_ = emp_cov.copy(); covariance_ *= 0.95`, then
inside the init loop of lines 235-236 each slice gets the diagonal of the
corresponding `emp_cov` slice written back (`c.flat[::n_features + 1] = ...`). -/
def covariance_init (empCov : List (Mat p)) : List (Mat p) :=
  empCov.map fun e =>
    let c := (0.95 : ℚ) • e
    Matrix.of fun i j => if i = j then e i j else c i j

/-- Line 237: `K[i] = linalg.pinvh(c)` on each damped covariance slice. -/
def K_init (empCov : List (Mat p)) : List (Mat p) :=
  (covariance_init empCov).map pinvh

/-- The configuration record `time_graph_lasso` passes to its loop. -/
def mkCfg (empCov : List (Mat p)) (nSamples : List ℚ)
    (alpha beta tol delta eps : ℚ) (debug : Bool)
    (choose lamdaCriterion : String) (timeNorm : ℕ) (vareps : ℚ) : Cfg p :=
  { empCov := empCov, nSamples := nSamples, alpha := alpha, beta := beta,
    tol := tol, delta := delta, eps := eps, debug := debug, choose := choose,
    lamdaCriterion := lamdaCriterion, timeNorm := timeNorm, vareps := vareps }

/-- The locals of `time_graph_lasso` just before the loop (lines 230-249):
`K` from the damped inverse initialisation, `max_residual = -inf`,
`n_linesearch = 0`, `n_ls` not yet assigned, `iteration_` about to start
at 0. -/
def init_state (empCov : List (Mat p)) (gamma lamda : ℚ) : St p :=
  { K := K_init empCov, S := empCov, gamma := gamma, lamda := lamda,
    maxResidual := none, nLinesearch := 0, nLs := none, iter := 0 }

/-- `time_graph_lasso` (lines 182-355).  The first component collects every
print and warning, in order.  When `max_iter = 0` the loop never runs, the
`for ... else` warning fires, and line 352 (`iteration_ + 1`) references the
loop variable that was never bound — a `NameError`. -/
noncomputable def time_graph_lasso (empCov : List (Mat p)) (nSamples : List ℚ)
    (alpha beta : ℚ) (maxIter : ℕ) (tol delta gamma lamda eps : ℚ)
    (debug : Bool) (choose lamdaCriterion : String) (timeNorm : ℕ)
    (vareps : ℚ) : List Event × Except PyErr (Result p) :=
  -- lines 225-228: `choose` validation, before any initialisation
  if choose = "gamma" ∨ choose = "lamda" ∨ choose = "fixed" ∨
      choose = "both" then
    match fbLoop
        (mkCfg empCov nSamples alpha beta tol delta eps debug choose
          lamdaCriterion timeNorm vareps) maxIter
        (init_state empCov gamma lamda) with
    | (evs, .error e) => (evs, .error e)
    | (evs, .ok (s1, exhausted)) =>
      if maxIter = 0 then (evs, .error .nameErrorIteration)
      else (evs, .ok
        { K := s1.K, covariance := covariance_init empCov, SOut := s1.S,
          nIter := if exhausted then s1.iter else s1.iter + 1,
          nLinesearch := s1.nLinesearch })
  else ([], .error .valueErrorChoose)

end FB

/-!
## Supporting lemmas and claim theorems
-/

namespace rgi

theorem prox_eq_specSoftThreshold (x kappa : ℚ) (hk : 0 ≤ kappa) :
    prox x kappa = specSoftThreshold x kappa := by
  unfold prox specSoftThreshold
  rcases lt_trichotomy x 0 with hx | hx | hx
  · rw [abs_of_neg hx, if_neg (by linarith), if_pos hx,
      max_eq_left (show x - kappa ≤ 0 by linarith)]
    rcases le_or_lt (-x - kappa) 0 with h | h
    · rw [max_eq_left h, max_eq_right h]
      ring
    · rw [max_eq_right h.le, max_eq_left h.le]
      ring
  · subst hx
    rw [max_eq_left (show (0:ℚ) - kappa ≤ 0 by linarith),
      max_eq_left (show -(0:ℚ) - kappa ≤ 0 by linarith)]
    norm_num
  · rw [abs_of_pos hx, if_pos hx,
      max_eq_left (show -x - kappa ≤ 0 by linarith)]
    rcases le_or_lt (x - kappa) 0 with h | h
    · rw [max_eq_left h, max_eq_right h]
      ring
    · rw [max_eq_right h.le, max_eq_left h.le]
      ring

theorem prox_zero_id (x : ℚ) : prox x 0 = x := by
  unfold prox
  simp only [sub_zero]
  rcases le_total x 0 with hx | hx
  · rw [max_eq_left hx, max_eq_right (neg_nonneg.mpr hx)]
    ring
  · rw [max_eq_right hx, max_eq_left (neg_nonpos.mpr hx)]
    ring

theorem prox_kill (x kappa : ℚ) (h : |x| ≤ kappa) : prox x kappa = 0 := by
  unfold prox
  rcases abs_le.mp h with ⟨h1, h2⟩
  rw [max_eq_left (show x - kappa ≤ 0 by linarith),
    max_eq_left (show -x - kappa ≤ 0 by linarith)]
  norm_num

end rgi
namespace FB

theorem fbIter_not_pd (C : Cfg p) (s : St p) (h : ¬ positive_definite s.K) :
    fbIter C s = ([Event.printNotPD], .ok (.brk s)) := by
  unfold fbIter
  rw [if_neg h]

theorem fbIter_no_linesearch_nameError (C : Cfg p) (s : St p)
    (hpd : positive_definite s.K)
    (h1 : ¬ (C.choose = "lamda" ∨ C.choose = "both"))
    (h2 : s.nLs = none) :
    fbIter C s = ([Event.printGamma], .error .nameErrorNLs) := by
  simp only [fbIter]
  rw [if_pos hpd, if_neg h1, h2]

theorem fbLoop_succ_of_iter_error (C : Cfg p) (fuel : ℕ) (s : St p)
    (evs : List Event) (e : PyErr) (h : fbIter C s = (evs, .error e)) :
    fbLoop C (fuel + 1) s = (evs, .error e) := by
  unfold fbLoop
  rw [h]

theorem fbLoop_succ_of_iter_brk (C : Cfg p) (fuel : ℕ) (s : St p)
    (evs : List Event) (s1 : St p) (h : fbIter C s = (evs, .ok (.brk s1))) :
    fbLoop C (fuel + 1) s = (evs, .ok (s1, false)) := by
  unfold fbLoop
  rw [h]

theorem fbLoop_succ_of_iter_cont (C : Cfg p) (fuel : ℕ) (s : St p)
    (evs : List Event) (s1 : St p) (h : fbIter C s = (evs, .ok (.cont s1))) :
    fbLoop C (fuel + 1) s =
      (evs ++ (fbLoop C fuel s1).1, (fbLoop C fuel s1).2) := by
  conv_lhs => unfold fbLoop
  rw [h]

theorem choose_lamda_invalid_criterion (lamda : ℚ) (x empCov : List (Mat p))
    (nSamples : List ℚ) (beta alpha gamma delta eps : ℚ) (maxIter : ℕ)
    (criterion : String) (pp : ℕ) (grad prox : List (Mat p)) (minEigenX : ℝ)
    (vareps : ℚ) (hfuel : maxIter ≠ 0) (ha : criterion ≠ "a")
    (hb : criterion ≠ "b") (hc : criterion ≠ "c") :
    choose_lamda lamda x empCov nSamples beta alpha gamma delta eps maxIter
      criterion pp grad prox minEigenX vareps =
      .error .valueErrorCriterion := by
  obtain ⟨fuel, rfl⟩ : ∃ n, maxIter = n + 1 :=
    ⟨maxIter - 1, (Nat.succ_pred_eq_of_pos (Nat.pos_of_ne_zero hfuel)).symm⟩
  unfold choose_lamda
  unfold choose_lamda_loop
  rw [if_neg ha, if_neg hb, if_neg hc]

theorem fbIter_invalid_criterion (C : Cfg p) (s : St p)
    (hpd : positive_definite s.K)
    (hchoose : C.choose = "lamda" ∨ C.choose = "both")
    (ha : C.lamdaCriterion ≠ "a") (hb : C.lamdaCriterion ≠ "b")
    (hc : C.lamdaCriterion ≠ "c") :
    fbIter C s = ([Event.printGamma], .error .valueErrorCriterion) := by
  simp only [fbIter]
  rw [if_pos hpd, if_pos hchoose,
    choose_lamda_invalid_criterion _ _ _ _ _ _ _ _ _ _ _ _ _ _ _ _
      (by norm_num) ha hb hc]

theorem tgl_of_loop (empCov : List (Mat p)) (nSamples : List ℚ)
    (alpha beta : ℚ) (maxIter : ℕ) (tol delta gamma lamda eps : ℚ)
    (debug : Bool) (choose lamdaCriterion : String) (timeNorm : ℕ)
    (vareps : ℚ)
    (hchoose : choose = "gamma" ∨ choose = "lamda" ∨ choose = "fixed" ∨
      choose = "both") :
    time_graph_lasso empCov nSamples alpha beta maxIter tol delta gamma lamda
      eps debug choose lamdaCriterion timeNorm vareps =
    (match fbLoop
        (mkCfg empCov nSamples alpha beta tol delta eps debug choose
          lamdaCriterion timeNorm vareps) maxIter
        (init_state empCov gamma lamda) with
      | (evs, .error e) => (evs, .error e)
      | (evs, .ok (s1, exhausted)) =>
        if maxIter = 0 then (evs, .error .nameErrorIteration)
        else (evs, .ok
          { K := s1.K, covariance := covariance_init empCov, SOut := s1.S,
            nIter := if exhausted then s1.iter else s1.iter + 1,
            nLinesearch := s1.nLinesearch })) := by
  unfold time_graph_lasso
  rw [if_pos hchoose]

theorem accept_and_check_S (C : Cfg p) (s : St p) (gamma1 lamda1 : ℚ)
    (nls nLine1 : ℕ) (grad xHat y kPrev : List (Mat p)) (evs : List Event)
    (out : IterOut p)
    (h : accept_and_check C s gamma1 lamda1 nls nLine1 grad xHat y kPrev =
      (evs, .ok out)) : (outSt out).S = s.S := by
  simp only [accept_and_check] at h
  split at h <;>
  · obtain ⟨h1, h2⟩ := Prod.mk.injEq .. ▸ h
    cases h2
    rfl

theorem fbIter_S (C : Cfg p) (s : St p) (evs : List Event) (out : IterOut p)
    (h : fbIter C s = (evs, .ok out)) : (outSt out).S = s.S := by
  simp only [fbIter] at h
  by_cases hpd : positive_definite s.K
  · rw [if_pos hpd] at h
    split at h
    · exact absurd h.symm (by simp)
    · split at h
      · exact absurd h.symm (by simp)
      · exact accept_and_check_S _ _ _ _ _ _ _ _ _ _ _ _ h
  · rw [if_neg hpd] at h
    obtain ⟨h1, h2⟩ := Prod.mk.injEq .. ▸ h
    cases h2
    rfl

theorem fbLoop_S (C : Cfg p) (fuel : ℕ) (s : St p) (evs : List Event)
    (s1 : St p) (ex : Bool) (h : fbLoop C fuel s = (evs, .ok (s1, ex))) :
    s1.S = s.S := by
  induction fuel generalizing s evs with
  | zero =>
    simp only [fbLoop] at h
    obtain ⟨h1, h2⟩ := Prod.mk.injEq .. ▸ h
    cases h2
    rfl
  | succ n ih =>
    rw [show fbLoop C (n + 1) s = match fbIter C s with
        | (evs, .error e) => (evs, .error e)
        | (evs, .ok (.brk s1)) => (evs, .ok (s1, false))
        | (evs, .ok (.cont s1)) =>
          let r := fbLoop C n s1
          (evs ++ r.1, r.2) from rfl] at h
    rcases hiter : fbIter C s with ⟨evs0, r0⟩
    rw [hiter] at h
    rcases r0 with e | out
    · exact absurd h.symm (by simp)
    · rcases out with s2 | s2
      · obtain ⟨h1, h2⟩ := Prod.mk.injEq .. ▸ h
        cases h2
        exact fbIter_S C s evs0 _ hiter
      · have h3 : (evs0 ++ (fbLoop C n s2).1, (fbLoop C n s2).2) =
            (evs, Except.ok (s1, ex)) := h
        rcases hrec : fbLoop C n s2 with ⟨evs2, r2⟩
        rw [hrec] at h3
        obtain ⟨h1, h2⟩ := Prod.mk.injEq .. ▸ h3
        cases h2
        have hS := ih s2 evs2 hrec
        have hS2 := fbIter_S C s evs0 _ hiter
        simp only [outSt] at hS2
        rw [hS, hS2]

theorem covariance_init_eq (empCov : List (Mat p)) :
    covariance_init empCov = empCov.map fun e =>
      Matrix.of fun i j => if i = j then e i j else 0.95 * e i j := by
  unfold covariance_init
  congr 1

theorem pd_K_init_one : positive_definite (K_init (p := 1) [!![(1:ℚ)]]) := by
  simp only [K_init, covariance_init, positive_definite, List.map_map,
    List.map_cons, List.map_nil, List.mem_singleton, forall_eq,
    Function.comp_apply]
  intro k
  fin_cases k
  norm_num [leadingMinor, pinvh, detQ, Fin.sum_univ_succ,
    Matrix.submatrix_apply, Matrix.of_apply, Matrix.smul_apply]

theorem cov_init_zero : covariance_init (p := 1) [!![(0:ℚ)]] = [!![(0:ℚ)]] := by
  simp only [covariance_init, List.map_cons, List.map_nil]
  congr 1
  ext i j
  fin_cases i
  fin_cases j
  norm_num [Matrix.of_apply]

theorem K_init_zero : K_init (p := 1) [!![(0:ℚ)]] = [!![(0:ℚ)]] := by
  rw [K_init, cov_init_zero]
  simp only [List.map_cons, List.map_nil]
  congr 1
  ext i j
  fin_cases i
  fin_cases j
  norm_num [pinvh, detQ, Fin.sum_univ_succ, Matrix.smul_apply,
    Matrix.of_apply, Matrix.submatrix_apply]

theorem not_pd_zero : ¬ positive_definite ([!![(0:ℚ)]]) := by
  intro h
  have := h _ (List.mem_singleton.mpr rfl) ⟨0, one_pos⟩
  norm_num [leadingMinor, detQ, Fin.sum_univ_succ,
    Matrix.submatrix_apply] at this

theorem not_pd_init_zero :
    ¬ positive_definite ((init_state (p := 1) [!![(0:ℚ)]] 1 1).K) := by
  show ¬ positive_definite (K_init (p := 1) [!![(0:ℚ)]])
  rw [K_init_zero]
  exact not_pd_zero

theorem run_no_linesearch (crit choose : String)
    (hvalid : choose = "gamma" ∨ choose = "lamda" ∨ choose = "fixed" ∨
      choose = "both")
    (hnl : ¬ (choose = "lamda" ∨ choose = "both")) :
    time_graph_lasso (p := 1) [!![(1:ℚ)]] [1] (1/100) 1 1 (1/10000)
      (1/10000) 1 1 (1/2) false choose crit 1 0 =
    ([Event.printGamma], .error .nameErrorNLs) := by
  have hiter := fbIter_no_linesearch_nameError
    (mkCfg [!![(1:ℚ)]] [1] (1/100) 1 (1/10000) (1/10000) (1/2) false
      choose crit 1 0)
    (init_state [!![(1:ℚ)]] 1 1) pd_K_init_one hnl rfl
  have hloop : fbLoop
      (mkCfg [!![(1:ℚ)]] [1] (1/100) 1 (1/10000) (1/10000) (1/2) false
        choose crit 1 0) 1
      (init_state [!![(1:ℚ)]] 1 1) =
      ([Event.printGamma], .error .nameErrorNLs) :=
    fbLoop_succ_of_iter_error _ 0 _ _ _ hiter
  rw [tgl_of_loop _ _ _ _ _ _ _ _ _ _ _ _ _ _ _ hvalid, hloop]

theorem run_lamda_invalid_criterion :
    time_graph_lasso (p := 1) [!![(1:ℚ)]] [1] (1/100) 1 1 (1/10000)
      (1/10000) 1 1 (1/2) false "lamda" "z" 1 0 =
    ([Event.printGamma], .error .valueErrorCriterion) := by
  have hiter := fbIter_invalid_criterion
    (mkCfg [!![(1:ℚ)]] [1] (1/100) 1 (1/10000) (1/10000) (1/2) false
      "lamda" "z" 1 0)
    (init_state [!![(1:ℚ)]] 1 1) pd_K_init_one (Or.inl rfl)
    (by decide) (by decide) (by decide)
  have hloop : fbLoop
      (mkCfg [!![(1:ℚ)]] [1] (1/100) 1 (1/10000) (1/10000) (1/2) false
        "lamda" "z" 1 0) 1
      (init_state [!![(1:ℚ)]] 1 1) =
      ([Event.printGamma], .error .valueErrorCriterion) :=
    fbLoop_succ_of_iter_error _ 0 _ _ _ hiter
  rw [tgl_of_loop _ _ _ _ _ _ _ _ _ _ _ _ _ _ _ (Or.inr (Or.inl rfl)), hloop]

theorem run_zero_break :
    time_graph_lasso (p := 1) [!![(0:ℚ)]] [1] (1/100) 1 1 (1/10000)
      (1/10000) 1 1 (1/2) false "fixed" "b" 1 0 =
    ([Event.printNotPD], .ok
      { K := [!![(0:ℚ)]], covariance := [!![(0:ℚ)]], SOut := [!![(0:ℚ)]],
        nIter := 1, nLinesearch := 0 }) := by
  have hloop : fbLoop
      (mkCfg [!![(0:ℚ)]] [1] (1/100) 1 (1/10000) (1/10000) (1/2) false
        "fixed" "b" 1 0) 1
      (init_state [!![(0:ℚ)]] 1 1) =
      ([Event.printNotPD],
        .ok (init_state [!![(0:ℚ)]] 1 1, false)) :=
    fbLoop_succ_of_iter_brk _ 0 _ _ _ (fbIter_not_pd _ _ not_pd_init_zero)
  rw [tgl_of_loop _ _ _ _ _ _ _ _ _ _ _ _ _ _ _
    (Or.inr (Or.inr (Or.inl rfl))), hloop]
  norm_num [init_state, K_init_zero, cov_init_zero]

theorem pinvh_one : pinvh (p := 1) !![(1:ℚ)] = !![(1:ℚ)] := by
  ext i j
  fin_cases i
  fin_cases j
  norm_num [pinvh, detQ, Fin.sum_univ_succ, Matrix.smul_apply,
    Matrix.of_apply, Matrix.submatrix_apply]

theorem cov_init_one : covariance_init (p := 1) [!![(1:ℚ)]] = [!![(1:ℚ)]] := by
  simp only [covariance_init, List.map_cons, List.map_nil]
  congr 1
  ext i j
  fin_cases i
  fin_cases j
  norm_num [Matrix.of_apply]

theorem K_init_one : K_init (p := 1) [!![(1:ℚ)]] = [!![(1:ℚ)]] := by
  rw [K_init, cov_init_one]
  simp only [List.map_cons, List.map_nil, pinvh_one]

theorem pd_one : positive_definite ([!![(1:ℚ)]]) := by
  intro a ha k
  simp only [List.mem_singleton] at ha
  subst ha
  fin_cases k
  norm_num [leadingMinor, detQ, Fin.sum_univ_succ, Matrix.submatrix_apply]

theorem choose_lamda_b_accept (lamda : ℚ) (x empCov : List (Mat p))
    (nSamples : List ℚ) (beta alpha gamma delta eps : ℚ) (fuel pp : ℕ)
    (grad prox : List (Mat p)) (mE : ℝ) (vareps : ℚ)
    (h : loss empCov
        (List.zipWith (fun k d => k + lamda • d) x
          (List.zipWith (· - ·) prox x)) nSamples vareps -
        loss empCov x nSamples vareps ≤
      (lamda : ℝ) * ((scalar_product (List.zipWith (· - ·) prox x) grad +
        delta / gamma *
          scalar_product (List.zipWith (· - ·) prox x)
            (List.zipWith (· - ·) prox x) : ℚ) : ℝ)) :
    choose_lamda lamda x empCov nSamples beta alpha gamma delta eps (fuel + 1)
      "b" pp grad prox mE vareps = .ok (lamda, 1) := by
  unfold choose_lamda
  unfold choose_lamda_loop
  simp only [String.reduceEq, if_false, if_true, reduceIte]
  rw [if_pos h]

theorem prox_FL_one : prox_FL (p := 1) [!![(1:ℚ)]] 0 0 = [!![(1:ℚ)]] := by
  simp only [prox_FL, List.map_cons, List.map_nil]
  congr 1
  ext i j
  fin_cases i
  fin_cases j
  norm_num [softQ, Matrix.of_apply]

theorem grad_loss_one :
    grad_loss (p := 1) [!![(1:ℚ)]] [!![(1:ℚ)]] [1]
      (some [!![(1:ℚ)]]) 0 = [(0 : Mat 1)] := by
  simp only [grad_loss, zipWith4]
  congr 1
  simp

theorem scalar_product_zero_left (y : List (Mat 1)) :
    scalar_product [(0 : Mat 1)] y = 0 := by
  rcases y with _ | ⟨a, t⟩ <;>
    simp [scalar_product]

theorem normStack_zero : normStack (p := 1) [(0 : Mat 1)] = 0 := by
  simp [normStack, sqnorm, scalar_product_zero_left, Real.sqrt_zero]

theorem fbIter_lamda_one :
    fbIter (p := 1)
      (mkCfg [!![(1:ℚ)]] [1] 0 0 (1/100) 0 (1/2) false "lamda" "b" 1 0)
      {
        K := [!![(1:ℚ)]], S := [!![(1:ℚ)]], gamma := 1, lamda := 1,
        maxResidual := none, nLinesearch := 0, nLs := none, iter := 0
      } =
    ([Event.printGamma, Event.printLamdaNls], .ok (.cont
      {
        K := [!![(1:ℚ)]], S := [!![(1:ℚ)]], gamma := 1, lamda := 1,
        maxResidual := some 0, nLinesearch := 1, nLs := some 1, iter := 1
      })) := by
  have hcl : choose_lamda (p := 1) 1 [!![(1:ℚ)]] [!![(1:ℚ)]] [1] 0 0 1 0 (1/2)
      200 "b" 1 [(0 : Mat 1)] [!![(1:ℚ)]] (minEigStack [!![(1:ℚ)]]) 0 =
      .ok (1, 1) := by
    refine choose_lamda_b_accept 1 [!![(1:ℚ)]] [!![(1:ℚ)]] [1] 0 0 1 0 (1/2)
      199 1 [(0 : Mat 1)] [!![(1:ℚ)]] (minEigStack [!![(1:ℚ)]]) 0 ?_
    simp [scalar_product_zero_left]
  unfold fbIter
  rw [if_pos pd_one]
  simp only [mkCfg, String.reduceEq, or_self, or_false, false_or, if_false,
    if_true, reduceIte, List.map_cons, List.map_nil, pinvh_one]
  rw [grad_loss_one]
  simp only [List.zipWith_cons_cons, List.zipWith_nil_left, smul_zero,
    sub_zero, zero_mul, prox_FL_one, lt_self_iff_false, if_false, min_self]
  rw [hcl]
  simp only [accept_and_check, accept_step, List.zipWith_cons_cons,
    List.zipWith_nil_left, sub_self, smul_zero, add_zero, normStack_zero,
    Rat.cast_one, div_one, zero_div]
  rw [if_neg (fun hst => absurd hst.2.2 (lt_irrefl 0))]

theorem run_lamda_warning :
    time_graph_lasso (p := 1) [!![(1:ℚ)]] [1] 0 0 1 (1/100) 0 1 1 (1/2)
      false "lamda" "b" 1 0 =
    ([Event.printGamma, Event.printLamdaNls, Event.warnNonConvergence],
     .ok
      {
        K := [!![(1:ℚ)]], covariance := [!![(1:ℚ)]], SOut := [!![(1:ℚ)]],
        nIter := 1, nLinesearch := 1
      }) := by
  have hs0 : init_state (p := 1) [!![(1:ℚ)]] 1 1 =
      {
        K := [!![(1:ℚ)]], S := [!![(1:ℚ)]], gamma := 1, lamda := 1,
        maxResidual := none, nLinesearch := 0, nLs := none, iter := 0
      } := by
    simp [init_state, K_init_one]
  have hloop : fbLoop
      (mkCfg (p := 1) [!![(1:ℚ)]] [1] 0 0 (1/100) 0 (1/2) false "lamda" "b"
        1 0) 1 (init_state [!![(1:ℚ)]] 1 1) =
      ([Event.printGamma, Event.printLamdaNls, Event.warnNonConvergence],
       .ok (
        {
          K := [!![(1:ℚ)]], S := [!![(1:ℚ)]], gamma := 1, lamda := 1,
          maxResidual := some 0, nLinesearch := 1, nLs := some 1, iter := 1
        }, true)) := by
    rw [hs0, fbLoop_succ_of_iter_cont _ 0 _ _ _ fbIter_lamda_one]
    rfl
  rw [tgl_of_loop _ _ _ _ _ _ _ _ _ _ _ _ _ _ _ (Or.inr (Or.inl rfl)), hloop]
  norm_num [cov_init_one]

theorem accept_and_check_brk_iff (C : Cfg p) (s : St p) (gamma1 lamda1 : ℚ)
    (nls nLine1 : ℕ) (grad xHat y kPrev : List (Mat p)) :
    (∃ s1, accept_and_check C s gamma1 lamda1 nls nLine1 grad xHat y kPrev =
      ([Event.printGamma, Event.printLamdaNls], .ok (.brk s1))) ↔
    stop_rule C.debug C.tol
      (normStack (List.zipWith (· - ·) (accept_step s.K y lamda1) kPrev) /
        (gamma1 : ℝ)) s.maxResidual (normStack grad)
      (normStack (List.zipWith (fun xh k => gamma1⁻¹ • (xh - k)) xHat
        (accept_step s.K y lamda1))) s.iter := by
  simp only [accept_and_check]
  by_cases hst : stop_rule C.debug C.tol
      (normStack (List.zipWith (· - ·) (accept_step s.K y lamda1) kPrev) /
        (gamma1 : ℝ)) s.maxResidual (normStack grad)
      (normStack (List.zipWith (fun xh k => gamma1⁻¹ • (xh - k)) xHat
        (accept_step s.K y lamda1))) s.iter
  · rw [if_pos hst]
    exact iff_of_true ⟨_, rfl⟩ hst
  · rw [if_neg hst]
    refine iff_of_false ?_ hst
    rintro ⟨s1, hs1⟩
    have := congrArg Prod.snd hs1
    simp at this

end FB

/-- Claim C7: the elementwise soft-thresholding operator `prox` of
`src/rgi/admm_group_lasso_overlap.py` computes `sign(x) * max(|x| - lamda, 0)`
in every entry (for the non-negative thresholds it is used with);
consequently, applying it with `lamda = 0` returns the input matrix
unchanged, and applying it with any `lamda` at least the largest entry
magnitude returns the zero matrix. -/
theorem C7_soft_threshold (n : ℕ) (x : Matrix (Fin n) (Fin n) ℚ) (kappa : ℚ) :
    (0 ≤ kappa → ∀ i j, rgi.proxMat x kappa i j =
      rgi.specSoftThreshold (x i j) kappa) ∧
    rgi.proxMat x 0 = x ∧
    ((∀ i j, |x i j| ≤ kappa) → rgi.proxMat x kappa = 0) := by
  refine ⟨fun hk i j => rgi.prox_eq_specSoftThreshold _ _ hk, ?_, fun h => ?_⟩
  · ext i j
    exact rgi.prox_zero_id (x i j)
  · ext i j
    exact rgi.prox_kill _ _ (h i j)

/-- Witness for C7 at the concrete matrix `!![3, -2; 0, 5]` with thresholds
`7` (at least every entry magnitude) and `0`. -/
theorem C7_soft_threshold_witness :
    rgi.proxMat !![(3:ℚ), -2; 0, 5] 7 0 0 =
      rgi.specSoftThreshold 3 7 ∧
    rgi.proxMat !![(3:ℚ), -2; 0, 5] 0 = !![(3:ℚ), -2; 0, 5] ∧
    rgi.proxMat !![(3:ℚ), -2; 0, 5] 7 = 0 := by
  refine ⟨(C7_soft_threshold 2 !![(3:ℚ), -2; 0, 5] 7).1 (by norm_num) 0 0,
    (C7_soft_threshold 2 !![(3:ℚ), -2; 0, 5] 0).2.1,
    (C7_soft_threshold 2 !![(3:ℚ), -2; 0, 5] 7).2.2 fun i j => ?_⟩
  fin_cases i <;> fin_cases j <;> norm_num

theorem consensus_pair_sum {α : Type} [AddCommGroup α] [Module ℚ α] :
    ∀ (aL aR e : List α),
      List.zipWith (· + ·)
          (zipWith3 (fun a b c => (0.5 : ℚ) • (a + b - c)) aL aR e)
          (zipWith3 (fun a b c => (0.5 : ℚ) • (a + b + c)) aL aR e) =
        zipWith3 (fun a b _ => a + b) aL aR e := by
  intro aL
  induction aL with
  | nil => intro aR e; rfl
  | cons a as ih =>
    intro aR e
    cases aR with
    | nil => rfl
    | cons b bs =>
      cases e with
      | nil => rfl
      | cons c cs =>
        have helem : (0.5 : ℚ) • (a + b - c) + (0.5 : ℚ) • (a + b + c) =
            a + b := by
          rw [← smul_add]
          have h : a + b - c + (a + b + c) = a + b + (a + b) := by abel
          rw [h, ← two_smul ℚ, smul_smul]
          norm_num
        simp only [zipWith3, List.zipWith, helem]
        exact congrArg _ (ih bs cs)

/-- Claim C9: in the non-node-penalty branch of the per-lag consensus update
of both ADMM lag-consensus solvers (`_fit_time_ising_model`, lines 158-159,
and `kernel_latent_time_graph_lasso`, lines 170-171), the updated pair
`Z_L = .5 * (A_L + A_R - prox_e)`, `Z_R = .5 * (A_L + A_R + prox_e)`
satisfies `Z_L + Z_R = A_L + A_R` exactly, slice by slice, whatever the
proximal output `prox_e` is. -/
theorem C9_consensus_split_sum {α : Type} [AddCommGroup α] [Module ℚ α]
    (aL aR proxE : List α) :
    List.zipWith (· + ·) (TimeIsing.Z_L aL aR proxE)
        (TimeIsing.Z_R aL aR proxE) =
      zipWith3 (fun a b _ => a + b) aL aR proxE ∧
    List.zipWith (· + ·) (KLTGL.Z_L aL aR proxE) (KLTGL.Z_R aL aR proxE) =
      zipWith3 (fun a b _ => a + b) aL aR proxE :=
  ⟨consensus_pair_sum aL aR proxE, consensus_pair_sum aL aR proxE⟩

/-- Supporting lemma (the positive half of the lag-pairing story): in
`_fit_time_ising_model` the lag-`m` prox inputs really do pair entry `i` of
the left block with slice `K[i]` and entry `i` of the right block with slice
`K[m + i]` — an offset of exactly `m` — whenever the dual stacks have the
broadcast-compatible length `T - m`. -/
theorem tis_lag_offset {α : Type} [Add α] (K U_L U_R : List α) (m i : ℕ)
    (hL : U_L.length = K.length - m) (hR : U_R.length = K.length - m)
    (hi : i < K.length - m) :
    TimeIsing.A_L K U_L m =
      .ok (List.zipWith (· + ·) (K.take (K.length - m)) U_L) ∧
    TimeIsing.A_R K U_R m = .ok (List.zipWith (· + ·) (K.drop m) U_R) ∧
    (List.zipWith (· + ·) (K.take (K.length - m)) U_L).get
        ⟨i, by simp [List.length_zipWith, List.length_take]; omega⟩ =
      K.get ⟨i, by omega⟩ + U_L.get ⟨i, by omega⟩ ∧
    (List.zipWith (· + ·) (K.drop m) U_R).get
        ⟨i, by simp [List.length_zipWith, List.length_drop]; omega⟩ =
      K.get ⟨m + i, by omega⟩ + U_R.get ⟨i, by omega⟩ := by
  refine ⟨?_, ?_, ?_, ?_⟩
  · unfold TimeIsing.A_L npBroadcastAdd
    rw [if_pos (by simp [List.length_take]; omega)]
  · unfold TimeIsing.A_R npBroadcastAdd
    rw [if_pos (by simp [List.length_drop]; omega)]
  · simp [List.get_eq_getElem, List.getElem_zipWith, List.getElem_take]
  · simp [List.get_eq_getElem, List.getElem_zipWith, List.getElem_drop]

/-- Claim C2 (defect in the code): in `_fit_time_ising_model` the lag-`m`
prox inputs are `K[:-m] + U_L` and `K[m:] + U_R` (offset exactly `m`), but in
`kernel_latent_time_graph_lasso` they are `Z_0[:-1] + X_L` and
`Z_0[1:] + X_R` — offset 1 whatever the lag.  Evaluated at `T = 3`, `m = 2`,
primal stack `[0, 10, 20]` and dual stack `[1]`: the time-Ising right input
is the single slice `K[2] + U_R[0] = 21`, while the kernel-latent version
broadcasts to the two slices `[Z_0[1] + 1, Z_0[2] + 1] = [11, 21]`, pairing
position 0 with `Z_0[1]` instead of `Z_0[2]`; and at `T = 4`, `m = 2` the
kernel-latent version raises a broadcasting `ValueError` outright. -/
theorem C2_lag_pairing_defect :
    TimeIsing.A_R ([0, 10, 20] : List ℤ) [1] 2 = .ok [21] ∧
    TimeIsing.A_L ([0, 10, 20] : List ℤ) [1] 2 = .ok [1] ∧
    KLTGL.A_R ([0, 10, 20] : List ℤ) [1] = .ok [11, 21] ∧
    KLTGL.A_L ([0, 10, 20] : List ℤ) [1] = .ok [1, 11] ∧
    (Except.ok [11, 21] : Except PyErr (List ℤ)) ≠ .ok [21] ∧
    TimeIsing.A_R ([0, 10, 20, 30] : List ℤ) [1, 2] 2 = .ok [21, 32] ∧
    KLTGL.A_R ([0, 10, 20, 30] : List ℤ) [1, 2] =
      .error .broadcastValueError := by
  refine ⟨rfl, rfl, rfl, rfl, ?_, rfl, rfl⟩
  intro h
  simp only [Except.ok.injEq] at h
  exact absurd h (by simp)

/-- Claim C3 (defect in the code): one outer iteration of
`kernel_latent_time_graph_lasso` at `T = 2` (so that every stack shape
matches) performs the primal, sparsity, and latent updates and then, at the
diagnostics step (line 218), references the local name `Z_1`, which no
statement of the function assigns — CPython raises `NameError`, so no primal
or dual residual is ever computed and no termination test is ever reached in
this solver. -/
theorem C3_kl_diagnostics_nameError :
    KLTGL.iteration
      { T := 2, empCov := [1, 1], nSamples := [1, 1], alpha := 1, tau := 1,
        rho := 1, kernelPsi := fun _ _ => 1, kernelPhi := fun _ _ => 1,
        proxPsi := fun v _ => v, proxPhi := fun v _ => v }
      { Z0 := [0, 0], W0 := [0, 0], X0 := [0, 0],
        ZM := [([0], [0])], XM := [([0], [0])],
        WM := [([0], [0])], UM := [([0], [0])] } =
    .error .nameErrorZ1 := by
  rfl

/-- Claim C1 (defect in the code): `time_graph_lasso` with `choose="fixed"`
or with the default `choose="gamma"` raises `NameError` at the
`print(lamda, n_ls)` of line 291 during the very first outer iteration,
because `n_ls` is assigned only when `choose` is `"lamda"` or `"both"`
(lines 281-290); the run aborts with an uncaught exception instead of ever
reaching the `"did not converge"` warning and the normal return.  By
contrast (third conjunct), with `choose="lamda"` the binding exists and the
claimed behaviour is real: exhausting `max_iter=1` emits the
did-not-converge warning and returns the final iterate normally — the crash
is specific to the `"gamma"` and `"fixed"` modes. -/
theorem C1_nameError_n_ls :
    FB.time_graph_lasso (p := 1) [!![(1:ℚ)]] [1] (1/100) 1 1 (1/10000)
      (1/10000) 1 1 (1/2) false "fixed" "b" 1 0 =
      ([FB.Event.printGamma], .error .nameErrorNLs) ∧
    FB.time_graph_lasso (p := 1) [!![(1:ℚ)]] [1] (1/100) 1 1 (1/10000)
      (1/10000) 1 1 (1/2) false "gamma" "b" 1 0 =
      ([FB.Event.printGamma], .error .nameErrorNLs) ∧
    FB.time_graph_lasso (p := 1) [!![(1:ℚ)]] [1] 0 0 1 (1/100) 0 1 1 (1/2)
      false "lamda" "b" 1 0 =
      ([FB.Event.printGamma, FB.Event.printLamdaNls,
        FB.Event.warnNonConvergence],
       .ok
        {
          K := [!![(1:ℚ)]], covariance := [!![(1:ℚ)]],
          SOut := [!![(1:ℚ)]], nIter := 1, nLinesearch := 1
        }) :=
  ⟨FB.run_no_linesearch "b" "fixed" (Or.inr (Or.inr (Or.inl rfl)))
      (by decide),
    FB.run_no_linesearch "b" "gamma" (Or.inl rfl) (by decide),
    FB.run_lamda_warning⟩

/-- Claim C4 (amended): each accepted forward-backward iterate is
`K_new = K + max(lamda, 0) * (y - K)` exactly as the specification states,
and the convergence break of lines 332-337 fires exactly when the
specification condition holds AND the `debug` flag is disabled — the source
gates the whole test on `not debug`, which the original claim omits.  The
third conjunct ties the rule to the loop tail itself: the iteration ends in
the `break` outcome exactly when `stop_rule` holds of the accepted iterate's
residual `||K_new - K_prev|| / gamma`, the gradient norm, and the
subgradient norm `||(x_hat - K_new) / gamma||`. -/
theorem C4_accept_and_stop_rule :
    (∀ (p : ℕ) (K y : List (FB.Mat p)) (lamda : ℚ),
      FB.accept_step K y lamda = FB.claim_accept K y lamda) ∧
    (∀ (debug : Bool) (tol : ℚ) (resNorm : ℝ) (maxResPrev : Option ℝ)
      (gradNorm subgradNorm : ℝ) (iter : ℕ),
      FB.stop_rule debug tol resNorm maxResPrev gradNorm subgradNorm iter ↔
        (debug = false ∧
          FB.claim_stop tol resNorm maxResPrev gradNorm subgradNorm iter)) ∧
    (∀ (p : ℕ) (C : FB.Cfg p) (s : FB.St p) (gamma1 lamda1 : ℚ)
      (nls nLine1 : ℕ) (grad xHat y kPrev : List (FB.Mat p)),
      (∃ s1, FB.accept_and_check C s gamma1 lamda1 nls nLine1 grad xHat y
          kPrev =
        ([FB.Event.printGamma, FB.Event.printLamdaNls], .ok (.brk s1))) ↔
      FB.stop_rule C.debug C.tol
        (FB.normStack
            (List.zipWith (· - ·) (FB.accept_step s.K y lamda1) kPrev) /
          (gamma1 : ℝ)) s.maxResidual (FB.normStack grad)
        (FB.normStack (List.zipWith (fun xh k => gamma1⁻¹ • (xh - k)) xHat
          (FB.accept_step s.K y lamda1))) s.iter) := by
  refine ⟨?_, ?_, ?_⟩
  · intro p K
    induction K with
    | nil => intro y lamda; cases y <;> rfl
    | cons k ks ih =>
      intro y lamda
      cases y with
      | nil => rfl
      | cons yv ys =>
        simp only [FB.accept_step, FB.claim_accept, List.zipWith,
          List.map] at ih ⊢
        exact congrArg _ (ih ys lamda)
  · intro debug tol resNorm maxResPrev gradNorm subgradNorm iter
    simp only [FB.stop_rule, FB.claim_stop, Bool.not_eq_true, gt_iff_lt,
      and_assoc]
  · intro p C s gamma1 lamda1 nls nLine1 grad xHat y kPrev
    exact FB.accept_and_check_brk_iff C s gamma1 lamda1 nls nLine1 grad xHat
      y kPrev

/-- Counterexample to C4 as stated: with `debug = True` the specification
condition holds (residual ratio `1 / max(4, 1) = 1/4` is at or below the
tolerance `1`, and three iterations have completed) yet the break of
line 335 does not fire, because the test is gated on `not debug`. -/
theorem C4_counterexample :
    ¬ FB.stop_rule true 1 (1 : ℝ) (some 4) 1 1 3 ∧
      FB.claim_stop 1 (1 : ℝ) (some 4) 1 1 3 := by
  constructor
  · simp [FB.stop_rule]
  · constructor
    · left
      rw [show (match (some (4:ℝ) : Option ℝ) with
          | none => (1:ℝ)
          | some m => max m 1) = (4:ℝ) from by
        simp [max_eq_left (by norm_num : (1:ℝ) ≤ 4)]]
      norm_num
    · norm_num

/-- Claim C5 (amended): whenever the positive-definiteness gate of
lines 251-253 fails at the top of an outer iteration, the loop prints the
divergence diagnostic and breaks immediately, and the solver returns the
current iterate — the very iterate that failed the check — to the caller,
with no exception raised. -/
theorem C5_pd_gate {p : ℕ} (C : FB.Cfg p) (fuel : ℕ) (s : FB.St p)
    (h : ¬ FB.positive_definite s.K) :
    FB.fbLoop C (fuel + 1) s =
      ([FB.Event.printNotPD], .ok (s, false)) :=
  FB.fbLoop_succ_of_iter_brk C fuel s _ s (FB.fbIter_not_pd C s h)

/-- Witness for C5 at the loop state produced by `emp_cov = [[[0]]]`, whose
initial `K` is the zero slice and fails the gate. -/
theorem C5_pd_gate_witness :
    FB.fbLoop
      (FB.mkCfg [!![(0:ℚ)]] [1] (1/100) 1 (1/10000) (1/10000) (1/2) false
        "fixed" "b" 1 0) 1
      (FB.init_state [!![(0:ℚ)]] 1 1) =
      ([FB.Event.printNotPD],
        .ok (FB.init_state [!![(0:ℚ)]] 1 1, false)) :=
  C5_pd_gate _ 0 _ FB.not_pd_init_zero

/-- Counterexample to C5 as stated: on `emp_cov = [[[0]]]` the solver breaks
at the gate on the very first iteration and returns normally — but the
returned precision stack `[[[0]]]` is itself not positive definite, so the
returned matrices are not "the last valid iterate": no valid iterate is
returned at all. -/
theorem C5_counterexample :
    FB.time_graph_lasso (p := 1) [!![(0:ℚ)]] [1] (1/100) 1 1 (1/10000)
      (1/10000) 1 1 (1/2) false "fixed" "b" 1 0 =
    ([FB.Event.printNotPD], .ok
      { K := [!![(0:ℚ)]], covariance := [!![(0:ℚ)]], SOut := [!![(0:ℚ)]],
        nIter := 1, nLinesearch := 0 }) ∧
    ¬ FB.positive_definite [!![(0:ℚ)]] :=
  ⟨FB.run_zero_break, FB.not_pd_zero⟩

/-- Claim C6 (amended): an invalid `choose` token is rejected with
`ValueError` before any initialisation, uniformly in every other input; an
unrecognized `lamda_criterion` token, however, raises its `ValueError` only
from inside `choose_lamda` during the first outer iteration (after the
line 275 `print(gamma)` has already run), and only when `choose` is
`"lamda"` or `"both"`. -/
theorem C6_config_validation :
    (∀ (p : ℕ) (empCov : List (FB.Mat p)) (nSamples : List ℚ)
      (alpha beta : ℚ) (maxIter : ℕ) (tol delta gamma lamda eps : ℚ)
      (debug : Bool) (choose lamdaCriterion : String) (timeNorm : ℕ)
      (vareps : ℚ),
      ¬ (choose = "gamma" ∨ choose = "lamda" ∨ choose = "fixed" ∨
        choose = "both") →
      FB.time_graph_lasso empCov nSamples alpha beta maxIter tol delta gamma
        lamda eps debug choose lamdaCriterion timeNorm vareps =
        ([], .error .valueErrorChoose)) ∧
    FB.time_graph_lasso (p := 1) [!![(1:ℚ)]] [1] (1/100) 1 1 (1/10000)
      (1/10000) 1 1 (1/2) false "lamda" "z" 1 0 =
      ([FB.Event.printGamma], .error .valueErrorCriterion) := by
  constructor
  · intro p empCov nSamples alpha beta maxIter tol delta gamma lamda eps
      debug choose lamdaCriterion timeNorm vareps h
    unfold FB.time_graph_lasso
    rw [if_neg h]
  · exact FB.run_lamda_invalid_criterion

/-- Witness for C6: the invalid token `"xyz"` is rejected before
initialisation on a concrete input. -/
theorem C6_config_validation_witness :
    FB.time_graph_lasso (p := 1) [!![(1:ℚ)]] [1] 1 1 1 1 1 1 1 1 false
      "xyz" "b" 1 0 = ([], .error .valueErrorChoose) :=
  C6_config_validation.1 1 [!![(1:ℚ)]] [1] 1 1 1 1 1 1 1 1 false
    "xyz" "b" 1 0 (by decide)

/-- Counterexample to C6 as stated: with `choose="fixed"` an invalid
`lamda_criterion` token `"z"` never raises `ValueError` at all (the run dies
of the unrelated `NameError` on `n_ls`), and with `choose="lamda"` the
`ValueError` is raised only after the first outer iteration has begun — the
in-loop `print(gamma)` of line 275 has already executed, as the emitted
event trace records. -/
theorem C6_counterexample :
    FB.time_graph_lasso (p := 1) [!![(1:ℚ)]] [1] (1/100) 1 1 (1/10000)
      (1/10000) 1 1 (1/2) false "fixed" "z" 1 0 =
      ([FB.Event.printGamma], .error .nameErrorNLs) ∧
    FB.time_graph_lasso (p := 1) [!![(1:ℚ)]] [1] (1/100) 1 1 (1/10000)
      (1/10000) 1 1 (1/2) false "lamda" "z" 1 0 =
      ([FB.Event.printGamma], .error .valueErrorCriterion) ∧
    (PyErr.nameErrorNLs ≠ PyErr.valueErrorCriterion) ∧
    ([FB.Event.printGamma] ≠ ([] : List FB.Event)) :=
  ⟨FB.run_no_linesearch "z" "fixed" (Or.inr (Or.inr (Or.inl rfl)))
      (by decide),
    FB.run_lamda_invalid_criterion, by decide, by decide⟩

/-- Claim C10: whenever `time_graph_lasso` returns normally, the covariance
it returns as its second output equals the input empirical covariance with
every off-diagonal entry multiplied by 0.95 and the diagonal restored —
fixed at initialisation (lines 230-237), never updated from the final
precision iterate (the lines 345-346 update is commented out) — and the
`emp_cov` binding threaded through the whole loop is returned unchanged,
whatever the number of iterations run. -/
theorem C10_covariance_frame {p : ℕ} (empCov : List (FB.Mat p))
    (nSamples : List ℚ) (alpha beta : ℚ) (maxIter : ℕ)
    (tol delta gamma lamda eps : ℚ) (debug : Bool)
    (choose lamdaCriterion : String) (timeNorm : ℕ) (vareps : ℚ)
    (evs : List FB.Event) (r : FB.Result p)
    (h : FB.time_graph_lasso empCov nSamples alpha beta maxIter tol delta
      gamma lamda eps debug choose lamdaCriterion timeNorm vareps =
      (evs, .ok r)) :
    r.covariance = empCov.map (fun e =>
      Matrix.of fun i j => if i = j then e i j else 0.95 * e i j) ∧
    r.SOut = empCov := by
  unfold FB.time_graph_lasso at h
  by_cases hch : choose = "gamma" ∨ choose = "lamda" ∨ choose = "fixed" ∨
      choose = "both"
  · rw [if_pos hch] at h
    split at h
    · exact absurd h.symm (by simp)
    · rename_i evs0 s1 ex heq
      split at h
      · exact absurd h.symm (by simp)
      · obtain ⟨h1, h2⟩ := Prod.mk.injEq .. ▸ h
        cases h2
        refine ⟨FB.covariance_init_eq empCov, ?_⟩
        show s1.S = empCov
        exact FB.fbLoop_S _ _ _ _ _ _ heq
  · rw [if_neg hch] at h
    exact absurd h.symm (by simp)

/-- Witness for C10 at the concrete normally-returning run on
`emp_cov = [[[0]]]`. -/
theorem C10_covariance_frame_witness :
    ({ K := [!![(0:ℚ)]], covariance := [!![(0:ℚ)]], SOut := [!![(0:ℚ)]],
        nIter := 1, nLinesearch := 0 } : FB.Result 1).covariance =
      [!![(0:ℚ)]].map (fun e =>
        Matrix.of fun i j => if i = j then e i j else 0.95 * e i j) ∧
    ({ K := [!![(0:ℚ)]], covariance := [!![(0:ℚ)]], SOut := [!![(0:ℚ)]],
        nIter := 1, nLinesearch := 0 } : FB.Result 1).SOut = [!![(0:ℚ)]] :=
  C10_covariance_frame [!![(0:ℚ)]] [1] (1/100) 1 1 (1/10000) (1/10000) 1 1
    (1/2) false "fixed" "b" 1 0 [FB.Event.printNotPD] _ FB.run_zero_break

/-- Witness for C9 at concrete rational stacks. -/
theorem C9_consensus_split_sum_witness :
    List.zipWith (· + ·) (TimeIsing.Z_L [(1:ℚ), 2] [3, 4] [5, 6])
        (TimeIsing.Z_R [(1:ℚ), 2] [3, 4] [5, 6]) =
      zipWith3 (fun a b _ => a + b) [(1:ℚ), 2] [3, 4] [5, 6] ∧
    List.zipWith (· + ·) (KLTGL.Z_L [(1:ℚ), 2] [3, 4] [5, 6])
        (KLTGL.Z_R [(1:ℚ), 2] [3, 4] [5, 6]) =
      zipWith3 (fun a b _ => a + b) [(1:ℚ), 2] [3, 4] [5, 6] :=
  C9_consensus_split_sum [(1:ℚ), 2] [3, 4] [5, 6]
